import Mathlib

/-!
Formal model of the UEBA behavioral-analytics core of the PayNetOpenPayment
repository (directory `ueba/`): the risk scorer (`detectors/risk_scorer.py`),
the alert manager (`alerts/alert_manager.py`), the anomaly detectors of the
behavior engine (`analytics/behavior_engine.py`) and the orchestration entry
point (`main.py`).  Python floats are modelled as rationals where the code only
performs field arithmetic, and as reals where `math.exp` is involved; Python
`datetime` values are modelled as integer seconds since the Unix epoch.
-/

namespace UEBA

/-- Five-tier risk level (`RiskLevel` in `models/schemas.py`). -/
inductive RiskLevel where
  | very_low
  | low
  | medium
  | high
  | very_high
  deriving DecidableEq, Repr

/-- Entity types (`EntityType` in `models/schemas.py`). -/
inductive EntityType where
  | user
  | device
  | application
  | service_account
  deriving DecidableEq, Repr

/-- Anomaly types (`AnomalyType` in `models/schemas.py`). -/
inductive AnomalyType where
  | time_anomaly
  | location_anomaly
  | access_anomaly
  | volume_anomaly
  | pattern_anomaly
  | behavioral_anomaly
  deriving DecidableEq, Repr

/-- Alert severities (`AlertSeverity` in `models/schemas.py`). -/
inductive AlertSeverity where
  | low
  | medium
  | high
  | critical
  deriving DecidableEq, Repr

/-- Alert statuses (`AlertStatus` in `models/schemas.py`). -/
inductive AlertStatus where
  | open
  | investigating
  | resolved
  | false_positive
  | suppressed
  deriving DecidableEq, Repr

/-- The `.value` string of an `AlertSeverity` member. -/
def severityValue : AlertSeverity → String
  | .low => "low"
  | .medium => "medium"
  | .high => "high"
  | .critical => "critical"

/-- Lookup in a Python-dict modelled as an association list (first match). -/
def dictLookup {α : Type} (l : List (String × α)) (k : String) : Option α :=
  (l.find? (fun p => p.fst == k)).map Prod.snd

/-- Python-dict assignment `d[k] = v`: replaces the value of the first
binding of an existing key in place, otherwise appends the new binding at the
end (insertion order preserved; dict keys are unique). -/
def dictInsert {α : Type} (l : List (String × α)) (k : String) (v : α) :
    List (String × α) :=
  match l with
  | [] => [(k, v)]
  | p :: rest =>
      if p.fst == k then (k, v) :: rest else p :: dictInsert rest k v

/-- Python `dict.update(other)`: assigns every binding of `other` in order. -/
def dictUpdate {α : Type} (l other : List (String × α)) : List (String × α) :=
  other.foldl (fun acc p => dictInsert acc p.fst p.snd) l

/-- Hour-of-day of a UTC timestamp in epoch seconds (`datetime.hour`). -/
def dtHour (t : ℤ) : ℤ :=
  t % 86400 / 3600

/-- Python `datetime.weekday()` (Monday = 0); 1970-01-01 was a Thursday. -/
def dtWeekday (t : ℤ) : ℤ :=
  (t / 86400 + 3) % 7

/-- Python `timedelta.days` of the difference of two timestamps: floor
division of the elapsed seconds by 86400. -/
def tdDays (secs : ℤ) : ℤ :=
  Int.fdiv secs 86400

/-- The weight table of `RiskScorer._calculate_weighted_score`
(`detectors/risk_scorer.py`, `weights`). -/
def riskScoreWeights : List (String × ℚ) :=
  [("anomaly_count_risk", 15/100),
   ("anomaly_severity_risk", 15/100),
   ("location_anomaly_risk", 10/100),
   ("access_anomaly_risk", 10/100),
   ("off_hours_risk", 5/100),
   ("weekend_risk", 3/100),
   ("night_activity_risk", 5/100),
   ("activity_burst_risk", 8/100),
   ("failed_access_risk", 10/100),
   ("sensitive_access_risk", 8/100),
   ("brute_force_risk", 12/100),
   ("high_volume_risk", 6/100),
   ("data_volume_risk", 4/100),
   ("privileged_entity_risk", 5/100),
   ("external_entity_risk", 4/100),
   ("untrusted_device_risk", 8/100),
   ("dormant_reactivation_risk", 6/100),
   ("pattern_deviation_risk", 7/100)]

/-- The weight of a factor name: `weights.get(factor_name, 0.01)`. -/
def weightOf (name : String) : ℚ :=
  match riskScoreWeights.find? (fun p => p.fst == name) with
  | some p => p.snd
  | none => 1/100

/-- Model of `RiskScorer._calculate_weighted_score`: the weighted sum over the
present factors is divided by the total weight of the present factors and the
result is clamped into `[0, 1]`. -/
def calculateWeightedScore (riskFactors : List (String × ℚ)) : ℚ :=
  if riskFactors = [] then 0
  else
    let weightedSum := (riskFactors.map (fun p => p.snd * weightOf p.fst)).sum
    let totalWeight := (riskFactors.map (fun p => weightOf p.fst)).sum
    let normalizedScore := if 0 < totalWeight then weightedSum / totalWeight else 0
    max 0 (min normalizedScore 1)

/-- The fixed-weighted-sum combination described by the specification (score
`= Σ value·weight` with no renormalization); stated only to compare the
specification against `calculateWeightedScore`. -/
def specFixedWeightedSum (riskFactors : List (String × ℚ)) : ℚ :=
  (riskFactors.map (fun p => p.snd * weightOf p.fst)).sum

/-- Model of `RiskScorer._determine_risk_level` on the real-valued score that
comes out of the decay step. -/
noncomputable def determineRiskLevel (score : ℝ) : RiskLevel :=
  if 4/5 ≤ score then .very_high
  else if 3/5 ≤ score then .high
  else if 2/5 ≤ score then .medium
  else if 1/5 ≤ score then .low
  else .very_low

example : calculateWeightedScore [("brute_force_risk", 1)] = 1 := by
  simp [calculateWeightedScore, weightOf, riskScoreWeights, List.find?,
    String.reduceBEq]

example : calculateWeightedScore [("anomaly_count_risk", 1/2)] = 1/2 := by
  simp [calculateWeightedScore, weightOf, riskScoreWeights, List.find?,
    String.reduceBEq]
  norm_num

example : (riskScoreWeights.map Prod.snd).sum = 141/100 := by
  norm_num [riskScoreWeights]

example : determineRiskLevel (9/10 : ℝ) = .very_high := by
  norm_num [determineRiskLevel]

example : dtHour 10800 = 3 := by decide

/-- Entity under analysis (`Entity` and its subclasses in `models/schemas.py`).
`is_privileged` exists only on `User`, `is_trusted` only on `Device`, and no
schema class defines `is_external`; an `Option` value of `none` models an
attribute for which Python `hasattr` is false. -/
structure Entity where
  entity_id : String
  entity_type : EntityType
  name : String
  baseline_established : Bool
  last_activity : Option ℤ
  is_privileged : Option Bool
  is_external : Option Bool
  is_trusted : Option Bool
  deriving DecidableEq, Repr

/-- Event as consumed by the risk scorer (`BaseEvent` and subclasses).
Attributes that exist only on some event subclasses are `Option`-valued, with
`none` meaning the attribute is absent (`hasattr` false). -/
structure Event where
  event_id : String
  timestamp : ℤ
  result : Option String
  data_classification : Option String
  source_ip : Option String
  bytes_accessed : Option ℤ
  bytes_sent : Option ℤ
  deriving DecidableEq, Repr

/-- Anomaly input of the risk scorer (`AnomalyDetection`, the fields the
scorer reads). -/
structure Anomaly where
  anomaly_type : AnomalyType
  anomaly_score : ℚ
  deriving DecidableEq, Repr

/-- Maximum of a nonempty integer list (`max(...)` in Python); 0 on `[]`. -/
def listMaxInt : List ℤ → ℤ
  | [] => 0
  | t :: ts => ts.foldl max t

/-- Minimum of a nonempty integer list (`min(...)` in Python); 0 on `[]`. -/
def listMinInt : List ℤ → ℤ
  | [] => 0
  | t :: ts => ts.foldl min t

/-- Model of `RiskScorer._calculate_anomaly_risk`. -/
def calculateAnomalyRisk (anomalies : List Anomaly) : List (String × ℚ) :=
  if anomalies = [] then
    [("anomaly_count_risk", 0), ("anomaly_severity_risk", 0)]
  else
    let countOf := fun (t : AnomalyType) =>
      (anomalies.filter (fun a => a.anomaly_type = t)).length
    let totalAnomalyScore := (anomalies.map Anomaly.anomaly_score).sum
    let anomalyCountRisk := min ((anomalies.length : ℚ) / 10) 1
    let anomalySeverityRisk := totalAnomalyScore / anomalies.length
    let base := [("anomaly_count_risk", anomalyCountRisk),
                 ("anomaly_severity_risk", anomalySeverityRisk)]
    let withLoc := if 0 < countOf .location_anomaly then
        base ++ [("location_anomaly_risk", min ((countOf .location_anomaly : ℚ) / 3) 1)]
      else base
    let withTime := if 0 < countOf .time_anomaly then
        withLoc ++ [("time_anomaly_risk", min ((countOf .time_anomaly : ℚ) / 5) 1)]
      else withLoc
    if 0 < countOf .access_anomaly then
      withTime ++ [("access_anomaly_risk", min ((countOf .access_anomaly : ℚ) / 3) 1)]
    else withTime

/-- Model of `RiskScorer._calculate_temporal_risk`. -/
def calculateTemporalRisk (events : List Event) : List (String × ℚ) :=
  if events = [] then [("temporal_risk", 0)]
  else
    let offHours := (events.filter (fun e =>
      dtHour e.timestamp < 8 ∨ 18 < dtHour e.timestamp)).length
    let weekend := (events.filter (fun e => 5 ≤ dtWeekday e.timestamp)).length
    let night := (events.filter (fun e =>
      22 ≤ dtHour e.timestamp ∨ dtHour e.timestamp ≤ 6)).length
    let total := events.length
    let burst : ℚ :=
      if 10 < total then
        let timeSpan : ℚ := ((listMaxInt (events.map Event.timestamp)
          - listMinInt (events.map Event.timestamp) : ℤ) : ℚ) / 3600
        if 0 < timeSpan then min ((total : ℚ) / timeSpan / 100) 1 else 1
      else 0
    [("off_hours_risk", (offHours : ℚ) / total),
     ("weekend_risk", (weekend : ℚ) / total),
     ("night_activity_risk", (night : ℚ) / total),
     ("activity_burst_risk", burst)]

/-- Bytes contributed by one event in `_calculate_volume_risk`
(`bytes_accessed` when present and truthy, else `bytes_sent`). -/
def eventDataBytes (e : Event) : ℤ :=
  if e.bytes_accessed.getD 0 ≠ 0 then e.bytes_accessed.getD 0
  else if e.bytes_sent.getD 0 ≠ 0 then e.bytes_sent.getD 0
  else 0

/-- Model of `RiskScorer._calculate_volume_risk` (the baseline comparison uses
the hard-coded `normal_events_per_hour = 10.0`). -/
def calculateVolumeRisk (events : List Event) : List (String × ℚ) :=
  if events = [] then [("volume_risk", 0)]
  else
    let total := events.length
    let eventsPerHour : ℚ :=
      if 1 < total then
        let timeSpanHours : ℚ := ((listMaxInt (events.map Event.timestamp)
          - listMinInt (events.map Event.timestamp) : ℤ) : ℚ) / 3600
        (total : ℚ) / max timeSpanHours 1
      else (total : ℚ)
    let highVolumeRisk : ℚ :=
      if 10 * 3 < eventsPerHour then min (eventsPerHour / 10 / 10) 1 else 0
    let totalDataBytes := (events.map eventDataBytes).sum
    let dataVolumeRisk : ℚ :=
      if 0 < totalDataBytes then
        min (((totalDataBytes : ℚ) / (1024 * 1024)) / 1000) 1
      else 0
    [("high_volume_risk", highVolumeRisk), ("data_volume_risk", dataVolumeRisk)]

/-- Model of `RiskScorer._calculate_access_risk`. -/
def calculateAccessRisk (events : List Event) : List (String × ℚ) :=
  if events = [] then [("access_risk", 0)]
  else
    let failed := (events.filter (fun e => e.result = some "failure")).length
    let successful := (events.filter (fun e => e.result = some "success")).length
    let sensitive := (events.filter (fun e =>
      e.data_classification = some "confidential"
        ∨ e.data_classification = some "secret"
        ∨ e.data_classification = some "top_secret")).length
    let uniqueIps := ((events.filterMap Event.source_ip).filter
      (fun ip => ip ≠ "")).dedup.length
    let totalAttempts := failed + successful
    let failedAccessRisk : ℚ :=
      if 0 < totalAttempts then (failed : ℚ) / totalAttempts else 0
    let bruteForceRisk : ℚ :=
      if 10 ≤ failed then min ((failed : ℚ) / 50) 1 else 0
    [("failed_access_risk", failedAccessRisk),
     ("sensitive_access_risk", min ((sensitive : ℚ) / 5) 1),
     ("multiple_ip_risk", min ((uniqueIps : ℚ) / 10) 1),
     ("brute_force_risk", bruteForceRisk)]

/-- Model of `RiskScorer._calculate_behavioral_change_risk`. -/
def calculateBehavioralChangeRisk (entity : Entity) (events : List Event)
    (now : ℤ) : List (String × ℚ) :=
  let dormant : ℚ :=
    match entity.last_activity with
    | some la =>
        let daysSinceLast := tdDays (now - la)
        if 30 < daysSinceLast ∧ events ≠ [] then
          min ((daysSinceLast : ℚ) / 365) 1
        else 0
    | none => 0
  [("dormant_reactivation_risk", dormant), ("pattern_deviation_risk", 0)]

/-- Model of `RiskScorer._calculate_entity_specific_risk`.  The
`untrusted_device_risk` binding is only produced for device entities. -/
def calculateEntitySpecificRisk (entity : Entity) : List (String × ℚ) :=
  let privileged : ℚ := if entity.is_privileged = some true then 3/10 else 0
  let external : ℚ := if entity.is_external = some true then 2/10 else 0
  let service : ℚ := if entity.entity_type = .service_account then 1/10 else 0
  let base := [("privileged_entity_risk", privileged),
               ("external_entity_risk", external),
               ("service_account_risk", service)]
  if entity.entity_type = .device then
    base ++ [("untrusted_device_risk",
      if entity.is_trusted = some false then 4/10 else 0)]
  else base

/-- Model of `RiskScorer._apply_time_decay`: the per-entity history is a list
of `(timestamp, score)` pairs; the most recent entry drives the decay with the
hard-coded constant `0.693` and a 24-hour half-life. -/
noncomputable def applyTimeDecay (history : List (ℤ × ℝ)) (now : ℤ)
    (score : ℝ) : ℝ :=
  match history.getLast? with
  | some last =>
      let hoursSinceLast : ℝ := ((now - last.fst : ℤ) : ℝ) / 3600
      let decayFactor := Real.exp (-(693/1000) * hoursSinceLast / 24)
      max (score * decayFactor) 0
  | none => score

/-- Model of `RiskScorer._update_historical_scores`: append the new
`(utcnow, score)` entry and drop entries older than the 30-day cutoff. -/
def updateHistoricalScores (history : List (ℤ × ℝ)) (now : ℤ) (score : ℝ) :
    List (ℤ × ℝ) :=
  (history ++ [(now, score)]).filter
    (fun p => now - 30 * 86400 ≤ p.fst)

/-- Risk-score record built by `RiskScorer.calculate_entity_risk`
(`RiskScore` in `models/schemas.py`, the fields the scorer writes). -/
structure RiskScoreR where
  entity_id : String
  entity_type : EntityType
  overall_score : ℝ
  risk_level : RiskLevel
  risk_factors : List (String × ℚ)
  contributing_events : List String
  calculation_method : String
  decay_applied : Bool

/-- The combined risk-factor dictionary built inside
`RiskScorer.calculate_entity_risk` by the six `update` calls. -/
def computeRiskFactors (entity : Entity) (events : List Event)
    (anomalies : List Anomaly) (now : ℤ) : List (String × ℚ) :=
  let f := dictUpdate [] (calculateAnomalyRisk anomalies)
  let f := dictUpdate f (calculateTemporalRisk events)
  let f := dictUpdate f (calculateVolumeRisk events)
  let f := dictUpdate f (calculateAccessRisk events)
  let f := dictUpdate f (calculateBehavioralChangeRisk entity events now)
  dictUpdate f (calculateEntitySpecificRisk entity)

/-- Model of `RiskScorer.calculate_entity_risk`: computes the factor map,
combines it, applies decay against the entity's score history, derives the
level, and returns the new score together with the updated history. -/
noncomputable def calculateEntityRisk (history : List (ℤ × ℝ))
    (entity : Entity) (events : List Event) (anomalies : List Anomaly)
    (now : ℤ) : RiskScoreR × List (ℤ × ℝ) :=
  let riskFactors := computeRiskFactors entity events anomalies now
  let overallScore :=
    applyTimeDecay history now ((calculateWeightedScore riskFactors : ℚ) : ℝ)
  let riskLevel := determineRiskLevel overallScore
  let contributingEvents :=
    ((events.map Event.event_id).reverse.take 10).reverse
  let riskScore : RiskScoreR :=
    { entity_id := entity.entity_id
      entity_type := entity.entity_type
      overall_score := overallScore
      risk_level := riskLevel
      risk_factors := riskFactors
      contributing_events := contributingEvents
      calculation_method := "weighted_ensemble"
      decay_applied := true }
  (riskScore, updateHistoricalScores history now overallScore)

/-- A sample entity used to instantiate universally quantified theorems. -/
def exEntity : Entity :=
  { entity_id := "user_001"
    entity_type := .user
    name := "User user_001"
    baseline_established := true
    last_activity := none
    is_privileged := none
    is_external := none
    is_trusted := none }

lemma riskScoreWeights_pos : ∀ p ∈ riskScoreWeights, (0 : ℚ) < p.snd := by
  intro p hp
  fin_cases hp <;> norm_num

lemma weightOf_pos (name : String) : 0 < weightOf name := by
  unfold weightOf
  cases h : riskScoreWeights.find? (fun p => p.fst == name) with
  | none => norm_num
  | some p => exact riskScoreWeights_pos p (List.mem_of_find?_eq_some h)

lemma totalWeight_pos (rf : List (String × ℚ)) (hne : rf ≠ []) :
    0 < (rf.map (fun p => weightOf p.fst)).sum := by
  apply List.sum_pos
  · intro x hx
    obtain ⟨p, _, rfl⟩ := List.mem_map.mp hx
    exact weightOf_pos p.fst
  · simpa using hne

lemma weightedSum_nonneg (rf : List (String × ℚ))
    (hv : ∀ p ∈ rf, 0 ≤ p.snd ∧ p.snd ≤ 1) :
    0 ≤ (rf.map (fun p => p.snd * weightOf p.fst)).sum := by
  apply List.sum_nonneg
  intro x hx
  obtain ⟨p, hp, rfl⟩ := List.mem_map.mp hx
  exact mul_nonneg (hv p hp).1 (weightOf_pos p.fst).le

lemma weightedSum_le_totalWeight (rf : List (String × ℚ))
    (hv : ∀ p ∈ rf, 0 ≤ p.snd ∧ p.snd ≤ 1) :
    (rf.map (fun p => p.snd * weightOf p.fst)).sum ≤
      (rf.map (fun p => weightOf p.fst)).sum := by
  apply List.sum_le_sum
  intro p hp
  calc p.snd * weightOf p.fst ≤ 1 * weightOf p.fst :=
        mul_le_mul_of_nonneg_right (hv p hp).2 (weightOf_pos p.fst).le
    _ = weightOf p.fst := one_mul _

/-- `C1` (counterexample).  With the single factor `brute_force_risk = 1.0`
the code returns `1.0` (the weighted average), not the fixed weighted sum
`0.12`; moreover the known weights sum to `1.41`, not `1.0`. -/
theorem calculateWeightedScore_counterexample :
    calculateWeightedScore [("brute_force_risk", 1)] ≠
      specFixedWeightedSum [("brute_force_risk", 1)] ∧
    (riskScoreWeights.map Prod.snd).sum ≠ 1 := by
  constructor
  · simp [calculateWeightedScore, specFixedWeightedSum, weightOf,
      riskScoreWeights, List.find?, String.reduceBEq]
    norm_num
  · norm_num [riskScoreWeights]

/-- `C1` (amended).  The overall score of
`RiskScorer._calculate_weighted_score` is the weighted *average* of the
present factors (the weighted sum divided by the total weight of the present
factor names, with unknown names defaulting to weight `0.01`), the known
weights sum to `1.41` rather than `1.0`, and for factor values in `[0, 1]`
the resulting score lies in `[0, 1]`. -/
theorem calculateWeightedScore_spec (rf : List (String × ℚ))
    (hne : rf ≠ []) (hv : ∀ p ∈ rf, 0 ≤ p.snd ∧ p.snd ≤ 1) :
    (riskScoreWeights.map Prod.snd).sum = 141/100 ∧
    calculateWeightedScore rf =
      (rf.map (fun p => p.snd * weightOf p.fst)).sum /
        (rf.map (fun p => weightOf p.fst)).sum ∧
    0 ≤ calculateWeightedScore rf ∧ calculateWeightedScore rf ≤ 1 := by
  have hW := totalWeight_pos rf hne
  have hS0 := weightedSum_nonneg rf hv
  have hSW := weightedSum_le_totalWeight rf hv
  have hdiv0 : 0 ≤ (rf.map (fun p => p.snd * weightOf p.fst)).sum /
      (rf.map (fun p => weightOf p.fst)).sum := div_nonneg hS0 hW.le
  have hdiv1 : (rf.map (fun p => p.snd * weightOf p.fst)).sum /
      (rf.map (fun p => weightOf p.fst)).sum ≤ 1 :=
    (div_le_one hW).mpr hSW
  have heq : calculateWeightedScore rf =
      (rf.map (fun p => p.snd * weightOf p.fst)).sum /
        (rf.map (fun p => weightOf p.fst)).sum := by
    unfold calculateWeightedScore
    rw [if_neg hne]
    simp only [if_pos hW]
    rw [min_eq_left hdiv1, max_eq_right hdiv0]
  refine ⟨by norm_num [riskScoreWeights], heq, ?_, ?_⟩
  · rw [heq]; exact hdiv0
  · rw [heq]; exact hdiv1

/-- `C1` (witness): the amended statement evaluated at the concrete factor
map `{anomaly_count_risk: 0.5}`. -/
theorem calculateWeightedScore_spec_witness :
    calculateWeightedScore [("anomaly_count_risk", 1/2)] =
      ([(("anomaly_count_risk" : String), (1 : ℚ)/2)].map
          (fun p => p.snd * weightOf p.fst)).sum /
        ([(("anomaly_count_risk" : String), (1 : ℚ)/2)].map
          (fun p => weightOf p.fst)).sum :=
  (calculateWeightedScore_spec [("anomaly_count_risk", 1/2)] (by simp)
    (by intro p hp; fin_cases hp <;> norm_num)).2.1

/-- `C2`.  `_determine_risk_level` realizes the five-tier cut-point table
(≥0.8 very-high, ≥0.6 high, ≥0.4 medium, ≥0.2 low, else very-low), and every
risk score produced by `calculate_entity_risk` carries the level obtained by
applying that mapping to its own overall score. -/
theorem determineRiskLevel_cutpoints (s : ℝ) (history : List (ℤ × ℝ))
    (entity : Entity) (events : List Event) (anomalies : List Anomaly)
    (now : ℤ) :
    ((4/5 ≤ s → determineRiskLevel s = .very_high) ∧
     (3/5 ≤ s → s < 4/5 → determineRiskLevel s = .high) ∧
     (2/5 ≤ s → s < 3/5 → determineRiskLevel s = .medium) ∧
     (1/5 ≤ s → s < 2/5 → determineRiskLevel s = .low) ∧
     (s < 1/5 → determineRiskLevel s = .very_low)) ∧
    (calculateEntityRisk history entity events anomalies now).1.risk_level =
      determineRiskLevel
        (calculateEntityRisk history entity events anomalies
          now).1.overall_score := by
  refine ⟨⟨?_, ?_, ?_, ?_, ?_⟩, rfl⟩ <;>
    (intros; unfold determineRiskLevel;
     split_ifs <;> first | rfl | (exfalso; linarith))

/-- `C2` (witness): the cut-point table evaluated at one score per tier. -/
theorem determineRiskLevel_cutpoints_witness :
    determineRiskLevel (9/10 : ℝ) = .very_high ∧
    determineRiskLevel (7/10 : ℝ) = .high ∧
    determineRiskLevel (1/2 : ℝ) = .medium ∧
    determineRiskLevel (3/10 : ℝ) = .low ∧
    determineRiskLevel (1/10 : ℝ) = .very_low :=
  ⟨((determineRiskLevel_cutpoints (9/10) [] exEntity [] [] 0).1.1 (by norm_num)),
   ((determineRiskLevel_cutpoints (7/10) [] exEntity [] [] 0).1.2.1
      (by norm_num) (by norm_num)),
   ((determineRiskLevel_cutpoints (1/2) [] exEntity [] [] 0).1.2.2.1
      (by norm_num) (by norm_num)),
   ((determineRiskLevel_cutpoints (3/10) [] exEntity [] [] 0).1.2.2.2.1
      (by norm_num) (by norm_num)),
   ((determineRiskLevel_cutpoints (1/10) [] exEntity [] [] 0).1.2.2.2.2
      (by norm_num))⟩

lemma half_lt_exp_const : (1 : ℝ)/2 < Real.exp (-(693/1000)) := by
  have hlog : (693/1000 : ℝ) < Real.log 2 := by
    have := Real.log_two_gt_d9
    linarith
  have hmono : Real.exp (-Real.log 2) < Real.exp (-(693/1000)) :=
    Real.exp_lt_exp.mpr (by linarith)
  have h2 : Real.exp (-Real.log 2) = 1/2 := by
    rw [Real.exp_neg, Real.exp_log (by norm_num : (0:ℝ) < 2)]
    norm_num
  linarith [hmono, h2.symm.le]

lemma exp_const_lt_half_add : Real.exp (-(693/1000)) ≤ 1/2 + 1/10000 := by
  have hlt := Real.log_two_lt_d9
  have hgt := Real.log_two_gt_d9
  norm_num at hlt hgt
  have hepos : 0 < Real.exp (Real.log 2 - 693/1000) := Real.exp_pos _
  have hinv : Real.exp (-(Real.log 2 - 693/1000)) *
      Real.exp (Real.log 2 - 693/1000) = 1 := by
    rw [← Real.exp_add]
    simp
  have hlow : (1 - (Real.log 2 - 693/1000)) *
      Real.exp (Real.log 2 - 693/1000) ≤ 1 := by
    have h1 := Real.add_one_le_exp (-(Real.log 2 - 693/1000))
    nlinarith [h1, hinv, hepos]
  have hbound : Real.exp (Real.log 2 - 693/1000) ≤ 10002/10000 := by
    nlinarith [hlow, hepos]
  have h12 : Real.exp (-(Real.log 2)) = 1/2 := by
    rw [Real.exp_neg, Real.exp_log (by norm_num : (0:ℝ) < 2)]
    norm_num
  have hsplit : Real.exp (-(693/1000) : ℝ) =
      Real.exp (Real.log 2 - 693/1000) * (1/2) := by
    rw [show (-(693/1000) : ℝ) = (Real.log 2 - 693/1000) + -(Real.log 2) by
      ring]
    rw [Real.exp_add, h12]
  rw [hsplit]
  linarith

/-- `C3` (counterexample).  With a prior score recorded at time 0 and a new
raw score of `1.0` exactly 24 hours later, the code multiplies by
`exp(-0.693)` (the hard-coded constant), which differs from the claimed
multiplier `exp(-ln 2 · 24/24) = 1/2`. -/
theorem applyTimeDecay_counterexample :
    applyTimeDecay [((0 : ℤ), (3/10 : ℝ))] 86400 1 ≠
      Real.exp (-(Real.log 2) * 24 / 24) * 1 := by
  have hlhs : applyTimeDecay [((0 : ℤ), (3/10 : ℝ))] 86400 1 =
      Real.exp (-(693/1000)) := by
    unfold applyTimeDecay
    simp only [List.getLast?]
    rw [one_mul, max_eq_left (Real.exp_pos _).le]
    norm_num
  have hrhs : Real.exp (-(Real.log 2) * 24 / 24) * 1 = 1/2 := by
    rw [mul_one]
    have : (-(Real.log 2) * 24 / 24 : ℝ) = -Real.log 2 := by ring
    rw [this, Real.exp_neg, Real.exp_log (by norm_num : (0:ℝ) < 2)]
    norm_num
  rw [hlhs, hrhs]
  exact (half_lt_exp_const).ne.symm

/-- `C3` (amended).  With a prior score, the new raw score is multiplied by
`exp(-0.693 · hours_elapsed / 24)` (the code hard-codes `0.693 ≈ ln 2`) and
floored at 0; at exactly 24 elapsed hours the decayed score is the raw score
times `0.5` up to `10⁻⁴`; with no prior score the raw score is returned
unchanged. -/
theorem applyTimeDecay_spec (history : List (ℤ × ℝ)) (now : ℤ) (score : ℝ)
    (t : ℤ) (s : ℝ) (hlast : history.getLast? = some (t, s))
    (hscore : 0 ≤ score) :
    applyTimeDecay history now score =
      score * Real.exp (-(693/1000) * (((now - t : ℤ) : ℝ) / 3600) / 24) ∧
    (∀ sc : ℝ, applyTimeDecay [] now sc = sc) ∧
    (now - t = 86400 →
      |applyTimeDecay history now score - score * (1/2)| ≤
        score * (1/10000)) := by
  have heq : applyTimeDecay history now score =
      score * Real.exp (-(693/1000) * (((now - t : ℤ) : ℝ) / 3600) / 24) := by
    unfold applyTimeDecay
    rw [hlast]
    exact max_eq_left (mul_nonneg hscore (Real.exp_pos _).le)
  refine ⟨heq, fun sc => rfl, fun h24 => ?_⟩
  have harg : (-(693/1000) * (((now - t : ℤ) : ℝ) / 3600) / 24 : ℝ) =
      -(693/1000) := by
    rw [h24]
    norm_num
  rw [heq, harg, ← mul_sub, abs_mul, abs_of_nonneg hscore]
  apply mul_le_mul_of_nonneg_left _ hscore
  rw [abs_le]
  constructor
  · linarith [half_lt_exp_const]
  · linarith [exp_const_lt_half_add]

/-- `C3` (witness): the amended statement at history `[(0, 0.3)]`, now 24
hours later, raw score `1.0`. -/
theorem applyTimeDecay_spec_witness :
    applyTimeDecay [((0 : ℤ), (3/10 : ℝ))] 86400 1 =
      1 * Real.exp (-(693/1000) * (((86400 - 0 : ℤ) : ℝ) / 3600) / 24) ∧
    |applyTimeDecay [((0 : ℤ), (3/10 : ℝ))] 86400 1 - 1 * (1/2)| ≤
      1 * (1/10000) :=
  ⟨(applyTimeDecay_spec [((0 : ℤ), (3/10 : ℝ))] 86400 1 0 (3/10) rfl
      (by norm_num)).1,
   (applyTimeDecay_spec [((0 : ℤ), (3/10 : ℝ))] 86400 1 0 (3/10) rfl
      (by norm_num)).2.2 (by norm_num)⟩

lemma updateHistoricalScores_preserves (history : List (ℤ × ℝ)) (now : ℤ)
    (score : ℝ) (hsorted : history.Pairwise (fun p q => p.fst ≤ q.fst))
    (hle : ∀ p ∈ history, p.fst ≤ now) :
    (updateHistoricalScores history now score).Pairwise
      (fun p q => p.fst ≤ q.fst) ∧
    ∀ p ∈ updateHistoricalScores history now score,
      now - 30 * 86400 ≤ p.fst ∧ p.fst ≤ now := by
  have happ : (history ++ [(now, score)]).Pairwise
      (fun p q : ℤ × ℝ => p.fst ≤ q.fst) := by
    rw [List.pairwise_append]
    refine ⟨hsorted, List.pairwise_singleton _ _, ?_⟩
    intro a ha b hb
    rcases List.mem_singleton.mp hb with rfl
    exact hle a ha
  constructor
  · exact List.Pairwise.filter _ happ
  · intro p hp
    rw [updateHistoricalScores, List.mem_filter] at hp
    refine ⟨by simpa using hp.2, ?_⟩
    rcases List.mem_append.mp hp.1 with h | h
    · exact hle p h
    · rcases List.mem_singleton.mp h with rfl
      exact le_refl _

/-- `C9`.  After `_update_historical_scores` the per-entity history is
monotonically ordered by timestamp and every retained entry lies inside the
trailing 30-day window; the same holds for the history produced by a full
`calculate_entity_risk` call (assuming the clock never runs backwards, i.e.
every existing entry was stamped no later than `now`). -/
theorem historicalScores_invariant (history : List (ℤ × ℝ)) (now : ℤ)
    (score : ℝ) (entity : Entity) (events : List Event)
    (anomalies : List Anomaly)
    (hsorted : history.Pairwise (fun p q => p.fst ≤ q.fst))
    (hle : ∀ p ∈ history, p.fst ≤ now) :
    ((updateHistoricalScores history now score).Pairwise
        (fun p q => p.fst ≤ q.fst) ∧
      ∀ p ∈ updateHistoricalScores history now score,
        now - 30 * 86400 ≤ p.fst ∧ p.fst ≤ now) ∧
    ((calculateEntityRisk history entity events anomalies now).2.Pairwise
        (fun p q => p.fst ≤ q.fst) ∧
      ∀ p ∈ (calculateEntityRisk history entity events anomalies now).2,
        now - 30 * 86400 ≤ p.fst ∧ p.fst ≤ now) :=
  ⟨updateHistoricalScores_preserves history now score hsorted hle,
   updateHistoricalScores_preserves history now _ hsorted hle⟩

/-- `C9` (witness): the invariant holds concretely for a one-entry history
updated one day later. -/
theorem historicalScores_invariant_witness :
    (updateHistoricalScores [((0 : ℤ), (1/2 : ℝ))] 86400 (3/10)).Pairwise
      (fun p q => p.fst ≤ q.fst) ∧
    ∀ p ∈ updateHistoricalScores [((0 : ℤ), (1/2 : ℝ))] 86400 (3/10),
      86400 - 30 * 86400 ≤ p.fst ∧ p.fst ≤ 86400 :=
  (historicalScores_invariant [((0 : ℤ), (1/2 : ℝ))] 86400 (3/10) exEntity
    [] [] (by simp) (by intro p hp; simp at hp; simp [hp])).1

/-- Security alert (`Alert` in `models/schemas.py`, the fields the alert
manager reads or writes). -/
structure Alert where
  alert_id : String
  title : String
  description : String
  severity : AlertSeverity
  status : AlertStatus
  entity_id : String
  entity_type : EntityType
  risk_score : ℝ
  created_at : ℤ
  escalated : Bool
  escalated_at : Option ℤ

/-- Mutable state of `AlertManager`: the active-alerts map (keyed by alert
id) and the cooldown map (keyed by the cooldown key). -/
structure AlertManagerState where
  active_alerts : List (String × Alert)
  alert_cooldowns : List (String × ℤ)

/-- The alert-manager state at construction time. -/
def initialAlertManagerState : AlertManagerState :=
  { active_alerts := [], alert_cooldowns := [] }

/-- Cooldown key of an alert: the f-string `f"{entity_id}_{severity.value}"`
of `_should_suppress_alert` and `_set_alert_cooldown`. -/
def cooldownKey (a : Alert) : String :=
  a.entity_id ++ "_" ++ severityValue a.severity

/-- Model of `AlertManager._should_suppress_alert`: true when the cooldown
key was stamped less than `alert_cooldown_minutes = 60` minutes ago. -/
def shouldSuppressAlert (st : AlertManagerState) (a : Alert) (now : ℤ) :
    Bool :=
  match dictLookup st.alert_cooldowns (cooldownKey a) with
  | some lastAlertTime =>
      decide ((((now - lastAlertTime : ℤ) : ℚ) / 60) < 60)
  | none => false

/-- Model of `AlertManager._should_escalate_alert` evaluated against the
active-alerts map it iterates: critical alerts escalate immediately
(`critical_alert_immediate_escalation = True`), any other severity escalates
once at least `repeated_alerts_threshold = 5` same-entity same-severity
alerts in the map were created within the trailing 24 hours. -/
def shouldEscalateAlert (activeAlerts : List (String × Alert)) (a : Alert)
    (now : ℤ) : Bool :=
  if a.severity = .critical then true
  else
    let similarAlerts := activeAlerts.filter (fun p =>
      p.snd.entity_id == a.entity_id
        && decide (p.snd.severity = a.severity)
        && decide (now - 24 * 3600 ≤ p.snd.created_at))
    decide (5 ≤ similarAlerts.length)

/-- One-tier severity bump of `AlertManager._escalate_alert`: medium becomes
high and high becomes critical; low and critical are left unchanged. -/
def bumpSeverity : AlertSeverity → AlertSeverity
  | .medium => .high
  | .high => .critical
  | s => s

/-- Numeric rank of a severity, used to state that escalation never lowers
severity. -/
def severityRank : AlertSeverity → ℕ
  | .low => 0
  | .medium => 1
  | .high => 2
  | .critical => 3

/-- Model of `AlertManager._send_escalation_notification`: the title is
prefixed with `[ESCALATED]` and the description with `ESCALATED:` for the
re-dispatch, then the original title (and only the title) is restored; the
notification itself is I/O and does not change the alert. -/
def sendEscalationNotification (a : Alert) : Alert :=
  let originalTitle := a.title
  let notified : Alert :=
    { a with
      title := "[ESCALATED] " ++ originalTitle
      description := "ESCALATED: " ++ a.description }
  { notified with title := originalTitle }

/-- Model of `AlertManager._escalate_alert`: sets the escalation flag and
timestamp, bumps the severity one tier, and re-dispatches the notification
through `sendEscalationNotification`. -/
def escalateAlert (a : Alert) (now : ℤ) : Alert :=
  let flagged : Alert := { a with escalated := true, escalated_at := some now }
  let bumped : Alert := { flagged with severity := bumpSeverity flagged.severity }
  sendEscalationNotification bumped

/-- Model of `AlertManager.process_alert`.  A suppressed alert leaves the
state unchanged.  Otherwise the alert object is stored, the cooldown key is
stamped with the original severity, escalation is evaluated against the map
that already contains the alert, and the final in-place mutations of the
shared alert object (escalation fields and `status = OPEN`) are reflected in
the stored entry. -/
def processAlert (st : AlertManagerState) (a : Alert) (now : ℤ) :
    AlertManagerState :=
  if shouldSuppressAlert st a now then st
  else
    let activeWithAlert := dictInsert st.active_alerts a.alert_id a
    let cooldownsStamped := dictInsert st.alert_cooldowns (cooldownKey a) now
    let afterEscalation :=
      if shouldEscalateAlert activeWithAlert a now then escalateAlert a now
      else a
    let finalAlert : Alert := { afterEscalation with status := .open }
    { active_alerts := dictInsert activeWithAlert a.alert_id finalAlert
      alert_cooldowns := cooldownsStamped }

/-- A sample critical alert used to instantiate alert-manager theorems. -/
noncomputable def exCritAlert : Alert :=
  { alert_id := "alert_001"
    title := "High Risk Entity Detected: User user_001"
    description := "Entity user_001 has elevated risk score of 0.912"
    severity := .critical
    status := .open
    entity_id := "user_001"
    entity_type := .user
    risk_score := 9/10
    created_at := 0
    escalated := false
    escalated_at := none }

/-- A second critical alert for the same entity, submitted one minute after
`exCritAlert`. -/
noncomputable def exCritAlert2 : Alert :=
  { exCritAlert with
    alert_id := "alert_002"
    created_at := 60 }

/-- A sample medium-severity alert for the same entity. -/
noncomputable def exMediumAlert : Alert :=
  { exCritAlert with
    alert_id := "alert_003"
    severity := .medium
    risk_score := 6/10 }

lemma dictLookup_insert_self {α : Type} (l : List (String × α)) (k : String)
    (v : α) : dictLookup (dictInsert l k v) k = some v := by
  induction l with
  | nil => simp [dictInsert, dictLookup, List.find?]
  | cons hd tl ih =>
      by_cases hhd : hd.fst == k
      · simp [dictInsert, hhd, dictLookup, List.find?]
      · simp only [dictInsert, hhd, Bool.false_eq_true, if_false]
        simpa [dictLookup, List.find?, hhd] using ih

lemma dictLookup_insert_ne {α : Type} (l : List (String × α)) (k k' : String)
    (v : α) (hne : k' ≠ k) :
    dictLookup (dictInsert l k v) k' = dictLookup l k' := by
  have hbeq : (k == k') = false := by simp [hne.symm]
  induction l with
  | nil => simp [dictInsert, dictLookup, List.find?, hbeq]
  | cons hd tl ih =>
      by_cases hhd : hd.fst == k
      · have hhd2 : (hd.fst == k') = false := by
          have heq : hd.fst = k := by simpa using hhd
          simp [heq, hne.symm]
        simp [dictInsert, hhd, dictLookup, List.find?, hhd2, hbeq]
      · simp only [dictInsert, hhd, Bool.false_eq_true, if_false]
        by_cases hhd3 : hd.fst == k'
        · simp [dictLookup, List.find?, hhd3]
        · simpa [dictLookup, List.find?, hhd3] using ih

lemma processAlert_of_suppressed (st : AlertManagerState) (a : Alert)
    (now : ℤ) (h : shouldSuppressAlert st a now = true) :
    processAlert st a now = st := by
  unfold processAlert
  rw [h]
  simp

lemma processAlert_not_suppressed (st : AlertManagerState) (a : Alert)
    (now : ℤ) (h : shouldSuppressAlert st a now = false) :
    processAlert st a now =
      { active_alerts := dictInsert (dictInsert st.active_alerts a.alert_id a)
          a.alert_id
          { (if shouldEscalateAlert (dictInsert st.active_alerts a.alert_id a)
                a now
             then escalateAlert a now else a) with status := .open }
        alert_cooldowns :=
          dictInsert st.alert_cooldowns (cooldownKey a) now } := by
  unfold processAlert
  rw [h]
  simp

/-- `C4`.  When a second alert with the same `(entity_id, severity)` key
arrives strictly within the 60-minute cooldown after a first, stored, alert
stamped the key, the second alert is suppressed and the state — in
particular the active-alerts map — is left exactly as it was: only the first
alert is stored. -/
theorem processAlert_cooldown_suppression (st : AlertManagerState)
    (a1 a2 : Alert) (t1 t2 : ℤ)
    (hent : a2.entity_id = a1.entity_id) (hsev : a2.severity = a1.severity)
    (hns : shouldSuppressAlert st a1 t1 = false)
    (hcool : ((t2 - t1 : ℤ) : ℚ) / 60 < 60) :
    shouldSuppressAlert (processAlert st a1 t1) a2 t2 = true ∧
    processAlert (processAlert st a1 t1) a2 t2 = processAlert st a1 t1 := by
  have hkey : cooldownKey a2 = cooldownKey a1 := by
    unfold cooldownKey
    rw [hent, hsev]
  have hsupp : shouldSuppressAlert (processAlert st a1 t1) a2 t2 = true := by
    rw [shouldSuppressAlert, processAlert_not_suppressed st a1 t1 hns]
    simp only [hkey]
    rw [dictLookup_insert_self]
    simpa using hcool
  exact ⟨hsupp, processAlert_of_suppressed _ _ _ hsupp⟩

/-- `C4` (witness): a second critical alert for the same entity one minute
after the first is dropped and the state is unchanged. -/
theorem processAlert_cooldown_suppression_witness :
    shouldSuppressAlert
      (processAlert initialAlertManagerState exCritAlert 0) exCritAlert2 60
        = true ∧
    processAlert (processAlert initialAlertManagerState exCritAlert 0)
        exCritAlert2 60 =
      processAlert initialAlertManagerState exCritAlert 0 :=
  processAlert_cooldown_suppression initialAlertManagerState exCritAlert
    exCritAlert2 0 60 rfl rfl rfl (by norm_num)

/-- `C5`.  For a stored (non-suppressed) fresh alert: a critical alert is
escalated immediately with its severity staying critical and the escalation
timestamp set; an alert of any other severity is escalated exactly when at
least 5 alerts with its entity id and severity sit in the active map within
the trailing 24 hours; escalation bumps medium to high and high to critical,
and the stored severity is never lower than the submitted one. -/
theorem processAlert_escalation (st : AlertManagerState) (a : Alert)
    (now : ℤ) (hns : shouldSuppressAlert st a now = false)
    (hfresh : a.escalated = false) :
    ∃ A, dictLookup (processAlert st a now).active_alerts a.alert_id
        = some A ∧
      (a.severity = .critical →
        A.escalated = true ∧ A.severity = .critical ∧
        A.escalated_at = some now) ∧
      (a.severity ≠ .critical →
        (A.escalated = true ↔
          5 ≤ ((dictInsert st.active_alerts a.alert_id a).filter (fun p =>
            p.snd.entity_id == a.entity_id
              && decide (p.snd.severity = a.severity)
              && decide (now - 24 * 3600 ≤ p.snd.created_at))).length)) ∧
      (A.escalated = true → A.severity = bumpSeverity a.severity) ∧
      (A.escalated = false → A.severity = a.severity) ∧
      severityRank a.severity ≤ severityRank A.severity := by
  rw [processAlert_not_suppressed st a now hns]
  cases hesc : shouldEscalateAlert (dictInsert st.active_alerts a.alert_id a)
      a now with
  | true =>
      refine ⟨_, by rw [dictLookup_insert_self], ?_, ?_, ?_, ?_, ?_⟩
      · intro hcrit
        simp [hesc, escalateAlert, sendEscalationNotification, bumpSeverity,
          hcrit]
      · intro hncrit
        constructor
        · intro _
          rw [shouldEscalateAlert, if_neg hncrit] at hesc
          exact of_decide_eq_true hesc
        · intro _
          simp [hesc, escalateAlert, sendEscalationNotification]
      · intro _
        simp [hesc, escalateAlert, sendEscalationNotification]
      · intro habs
        simp [hesc, escalateAlert, sendEscalationNotification] at habs
      · simp only [hesc, if_true]
        cases hsev : a.severity <;>
          simp [escalateAlert, sendEscalationNotification, bumpSeverity,
            severityRank, hsev]
  | false =>
      refine ⟨_, by rw [dictLookup_insert_self], ?_, ?_, ?_, ?_, ?_⟩
      · intro hcrit
        rw [shouldEscalateAlert, if_pos hcrit] at hesc
        simp at hesc
      · intro hncrit
        rw [shouldEscalateAlert, if_neg hncrit] at hesc
        constructor
        · intro habs
          simp [hesc, hfresh] at habs
        · intro hcount
          exact absurd hcount (of_decide_eq_false hesc)
      · intro habs
        simp [hesc, hfresh] at habs
      · intro _
        simp [hesc]
      · simp [hesc]

/-- `C5` (witness): a fresh critical alert processed into the empty manager
state is stored escalated, still critical, with its escalation timestamp. -/
theorem processAlert_escalation_witness :
    ∃ A, dictLookup
        (processAlert initialAlertManagerState exCritAlert 0).active_alerts
        exCritAlert.alert_id = some A ∧
      A.escalated = true ∧ A.severity = .critical ∧
      A.escalated_at = some 0 := by
  obtain ⟨A, hA, hcrit, _⟩ :=
    processAlert_escalation initialAlertManagerState exCritAlert 0 rfl rfl
  exact ⟨A, hA, (hcrit rfl).1, (hcrit rfl).2.1, (hcrit rfl).2.2⟩

/-- `C10`.  The escalation re-dispatch prefixes the title with
`[ESCALATED]` only transiently and restores it before returning (the
description keeps its `ESCALATED:` prefix), so the alert stored by
`process_alert` keeps the submitted title, id, entity, entity type, creation
time and risk score unchanged. -/
theorem processAlert_preserves_title (st : AlertManagerState) (a : Alert)
    (now : ℤ) (hns : shouldSuppressAlert st a now = false) :
    (∀ b : Alert, (sendEscalationNotification b).title = b.title ∧
      (sendEscalationNotification b).description =
        "ESCALATED: " ++ b.description) ∧
    ∃ A, dictLookup (processAlert st a now).active_alerts a.alert_id
        = some A ∧
      A.title = a.title ∧ A.alert_id = a.alert_id ∧
      A.entity_id = a.entity_id ∧ A.entity_type = a.entity_type ∧
      A.created_at = a.created_at ∧ A.risk_score = a.risk_score := by
  refine ⟨fun b => ⟨rfl, rfl⟩, ?_⟩
  rw [processAlert_not_suppressed st a now hns]
  refine ⟨_, by rw [dictLookup_insert_self], ?_⟩
  cases hesc : shouldEscalateAlert (dictInsert st.active_alerts a.alert_id a)
      a now <;>
    simp [hesc, escalateAlert, sendEscalationNotification]

/-- `C10` (witness): a fresh medium alert processed into the empty manager
state keeps its submitted title. -/
theorem processAlert_preserves_title_witness :
    ∃ A, dictLookup
        (processAlert initialAlertManagerState exMediumAlert 0).active_alerts
        exMediumAlert.alert_id = some A ∧
      A.title = exMediumAlert.title := by
  obtain ⟨-, A, hA, htitle, -⟩ :=
    processAlert_preserves_title initialAlertManagerState exMediumAlert 0 rfl
  exact ⟨A, hA, htitle⟩

/-- Behavior baseline (`BehaviorBaseline` in `models/schemas.py`, the fields
the time-anomaly detector reads): `features['typical_hours']` and
`statistical_measures['hourly_frequency']`, the latter keyed by
`str(hour)`. -/
structure BehaviorBaseline where
  id : String
  typical_hours : List ℤ
  hourly_frequency : List (String × ℚ)
  deriving DecidableEq, Repr

/-- Anomaly record emitted by the behavior-engine detectors
(`AnomalyDetection` in `models/schemas.py`; the two `Any`-valued dicts are
modelled by their numeric entries `current_hour` and `hour_deviation`). -/
structure AnomalyDetection where
  entity_id : String
  anomaly_type : AnomalyType
  anomaly_score : ℚ
  confidence : ℚ
  threshold : ℚ
  baseline_id : Option String
  current_hour : Option ℤ
  hour_deviation : Option ℚ
  deriving DecidableEq, Repr

/-- Maximum of a nonempty rational list (`max(...)` in Python); 0 on `[]`. -/
def listMaxRat : List ℚ → ℚ
  | [] => 0
  | v :: vs => vs.foldl max v

/-- `AnalyticsConfig.BASELINE_THRESHOLDS['login_frequency_std_multiplier']`
(`config/settings.py`). -/
def loginFrequencyStdMultiplier : ℚ := 3

/-- Model of `BehaviorEngine._detect_time_anomalies`.  `now` is the wall
clock the code reads through `datetime.utcnow()`; the feature vector is
passed but never read.  An all-zero nonempty frequency table would raise
`ZeroDivisionError` in the source, which the handler turns into the empty
anomaly list. -/
def detectTimeAnomalies (entity : Entity) (features : List (String × ℚ))
    (baseline : BehaviorBaseline) (now : ℤ) : List AnomalyDetection :=
  let currentHour := dtHour now
  let baselineHours := baseline.typical_hours
  if baselineHours ≠ [] ∧ currentHour ∉ baselineHours then
    let hourFrequencies := baseline.hourly_frequency
    let currentFrequency :=
      (dictLookup hourFrequencies (toString currentHour)).getD 0
    let maxFrequency :=
      if hourFrequencies = [] then 1
      else listMaxRat (hourFrequencies.map Prod.snd)
    if maxFrequency = 0 then []
    else
      let anomalyScore := 1 - currentFrequency / maxFrequency
      if loginFrequencyStdMultiplier * (1/10) < anomalyScore then
        [{ entity_id := entity.entity_id
           anomaly_type := .time_anomaly
           anomaly_score := anomalyScore
           confidence := 8/10
           threshold := 3/10
           baseline_id := some baseline.id
           current_hour := some currentHour
           hour_deviation := some anomalyScore }]
      else []
  else []

/-- Model of `BehaviorEngine._detect_with_isolation_forest`: the isolation
forest built in `_initialize_models` is never fitted, so
`decision_function` raises `NotFittedError`; the handler logs the error and
returns `0.0` for every input vector. -/
def detectWithIsolationForest (featureVector : List ℚ) : ℚ := 0

/-- The baseline used in the detector theorems: business typical hours 9..17
and an hourly-frequency table with frequency 0.01 at hour 3 and maximum
bucket 0.15. -/
def exBaseline : BehaviorBaseline :=
  { id := "baseline_001"
    typical_hours := [9, 10, 11, 12, 13, 14, 15, 16, 17]
    hourly_frequency := [("3", 1/100), ("12", 3/20)] }

/-- The same frequency table with an empty typical-hours list. -/
def exBaselineEmptyHours : BehaviorBaseline :=
  { exBaseline with typical_hours := [] }

/-- `C6` (counterexample).  Two runs of the time-anomaly detector on the
same entity, feature vector and baseline give different anomaly sets when
the wall clock differs: at 03:00 UTC an anomaly is emitted, at 10:00 UTC
none is — the output is not a function of the declared inputs alone. -/
theorem detectTimeAnomalies_clock_counterexample :
    detectTimeAnomalies exEntity [] exBaseline 10800 ≠
      detectTimeAnomalies exEntity [] exBaseline 36000 := by
  intro h
  have h1 : detectTimeAnomalies exEntity [] exBaseline 36000 = [] := by
    norm_num [detectTimeAnomalies, exBaseline, dtHour]
  have h2 : (detectTimeAnomalies exEntity [] exBaseline 10800).length = 1 := by
    norm_num [detectTimeAnomalies, exBaseline, dtHour, dictLookup,
      List.find?, String.reduceBEq, listMaxRat, loginFrequencyStdMultiplier,
      show toString (3 : ℤ) = "3" from rfl]
    rw [if_neg (show ¬(([("3", (1:ℚ)/100), ("12", 3/20)] :
      List (String × ℚ)) = []) from by simp)]
    rw [if_neg (show ¬(([9, 10, 11, 12, 13, 14, 15, 16, 17] :
      List ℤ) = []) from by simp)]
    norm_num
  rw [h, h1] at h2
  simp at h2

/-- `C6` (amended).  The detector outputs are deterministic functions of the
declared inputs *plus the wall clock*: the time-anomaly detector depends on
the clock only through the current hour (so two runs at the same instant, or
in the same hour of day, agree), and the isolation-forest score is `0.0` for
every input vector (the embedded model is unfitted, so its scoring path
degrades to the handler's constant). -/
theorem detectTimeAnomalies_deterministic (entity : Entity)
    (features features₂ : List (String × ℚ)) (b : BehaviorBaseline)
    (t t₂ : ℤ) (hhour : dtHour t = dtHour t₂) :
    detectTimeAnomalies entity features b t =
      detectTimeAnomalies entity features₂ b t₂ ∧
    ∀ v : List ℚ, detectWithIsolationForest v = 0 := by
  constructor
  · unfold detectTimeAnomalies
    rw [hhour]
  · intro v
    rfl

/-- `C6` (witness): runs at epoch 0 and exactly one day later (same hour of
day) coincide. -/
theorem detectTimeAnomalies_deterministic_witness :
    detectTimeAnomalies exEntity [] exBaseline 0 =
      detectTimeAnomalies exEntity [] exBaseline 86400 :=
  (detectTimeAnomalies_deterministic exEntity [] [] exBaseline 0 86400
    (by decide)).1

/-- `C7` (counterexample).  With an empty typical-hours list the current
hour 3 is not in the set and the claimed score `1 − 0.01/0.15 = 14/15`
exceeds the 0.3 gate, yet the detector emits nothing: the truthiness check
`if baseline_hours and ...` skips empty baselines. -/
theorem detectTimeAnomalies_emptyHours_counterexample :
    detectTimeAnomalies exEntity [] exBaselineEmptyHours 10800 = [] ∧
    (3 : ℤ) ∉ exBaselineEmptyHours.typical_hours ∧
    (3/10 : ℚ) < 1 - (1/100) / (3/20) := by
  refine ⟨rfl, by simp [exBaselineEmptyHours, exBaseline], by norm_num⟩

/-- The deviation score the time-anomaly detector computes for a given
current hour: `1 - (frequency of the hour / max bucket frequency)`. -/
def timeAnomalyScore (b : BehaviorBaseline) (currentHour : ℤ) : ℚ :=
  let currentFrequency :=
    (dictLookup b.hourly_frequency (toString currentHour)).getD 0
  let maxFrequency :=
    if b.hourly_frequency = [] then 1
    else listMaxRat (b.hourly_frequency.map Prod.snd)
  1 - currentFrequency / maxFrequency

/-- `C7` (amended).  For a baseline with a *nonempty* typical-hours set not
containing the current hour (and a positive maximum bucket frequency), the
detector computes `score = 1 − freq(current hour)/max bucket frequency` and
emits one time anomaly exactly when that score strictly exceeds the gate
`0.3 = login_frequency_std_multiplier (3.0) × 0.1`. -/
theorem detectTimeAnomalies_spec (entity : Entity)
    (features : List (String × ℚ)) (b : BehaviorBaseline) (now : ℤ)
    (hne : b.typical_hours ≠ []) (hnotin : dtHour now ∉ b.typical_hours)
    (hmax : 0 < (if b.hourly_frequency = [] then (1 : ℚ)
      else listMaxRat (b.hourly_frequency.map Prod.snd))) :
    (detectTimeAnomalies entity features b now ≠ [] ↔
      3/10 < timeAnomalyScore b (dtHour now)) ∧
    (3/10 < timeAnomalyScore b (dtHour now) →
      detectTimeAnomalies entity features b now =
        [{ entity_id := entity.entity_id
           anomaly_type := .time_anomaly
           anomaly_score := timeAnomalyScore b (dtHour now)
           confidence := 8/10
           threshold := 3/10
           baseline_id := some b.id
           current_hour := some (dtHour now)
           hour_deviation := some (timeAnomalyScore b (dtHour now)) }]) := by
  have hg : (loginFrequencyStdMultiplier * (1/10) : ℚ) = 3/10 := by
    norm_num [loginFrequencyStdMultiplier]
  unfold detectTimeAnomalies timeAnomalyScore
  rw [if_pos ⟨hne, hnotin⟩]
  simp only [hg]
  rw [if_neg hmax.ne.symm]
  constructor
  · by_cases h : 3/10 < 1 -
        ((dictLookup b.hourly_frequency (toString (dtHour now))).getD 0) /
        (if b.hourly_frequency = [] then 1
         else listMaxRat (b.hourly_frequency.map Prod.snd))
    · simp [h]
    · simp [h]
  · intro h
    rw [if_pos h]

/-- `C7` (witness): baseline typical-hours {9..17}, current hour 3,
frequency 0.01 against maximum bucket 0.15 — one time anomaly with score
`14/15 ≈ 0.93` is emitted. -/
theorem detectTimeAnomalies_spec_witness :
    detectTimeAnomalies exEntity [] exBaseline 10800 =
      [{ entity_id := "user_001"
         anomaly_type := .time_anomaly
         anomaly_score := 14/15
         confidence := 8/10
         threshold := 3/10
         baseline_id := some "baseline_001"
         current_hour := some 3
         hour_deviation := some (14/15) }] ∧
    |(14/15 : ℚ) - 93/100| ≤ 1/100 := by
  have hscore : timeAnomalyScore exBaseline (dtHour 10800) = 14/15 := by
    norm_num [timeAnomalyScore, exBaseline, dictLookup, List.find?,
      String.reduceBEq, listMaxRat, dtHour, show toString (3 : ℤ) = "3"
        from rfl]
    rw [if_neg (show ¬(([("3", (1:ℚ)/100), ("12", 3/20)] :
      List (String × ℚ)) = []) from by simp)]
    norm_num
  have h := (detectTimeAnomalies_spec exEntity [] exBaseline 10800
    (by simp [exBaseline]) (by decide)
    (by rw [if_neg (show ¬((exBaseline.hourly_frequency :
          List (String × ℚ)) = []) from by simp [exBaseline])]
        simp [exBaseline, listMaxRat])).2
    (by rw [hscore]; norm_num)
  constructor
  · rw [h, hscore]
    norm_num [exEntity, exBaseline, show dtHour 10800 = 3 from by decide]
  · rw [abs_of_nonneg (by norm_num)]
    norm_num

/-- Analysis request (`AnalysisRequest` in `models/schemas.py`, the fields
`UEBASystem.analyze_entity_behavior` reads). -/
structure AnalysisRequest where
  entity_ids : List String
  entity_type : Option EntityType
  analysis_types : List String
  deriving DecidableEq, Repr

/-- Analysis response (`AnalysisResponse` in `models/schemas.py`);
`results["error"]` is modelled by the `error` field. -/
structure AnalysisResponse where
  status : String
  error : Option String
  anomalies : List AnomalyDetection
  risk_scores : List RiskScoreR
  alerts : List Alert

/-- Model of `UEBASystem._collect_entities`: builds one mock entity per
requested id (`baseline_established = True`; a user carries the
`is_privileged = False` default, a device the `is_trusted = False` default,
a generic entity has neither attribute; a missing type defaults to user). -/
def collectEntities (entityIds : List String)
    (entityType : Option EntityType) : List Entity :=
  entityIds.map (fun entityId =>
    match entityType with
    | some .user =>
        { entity_id := entityId
          entity_type := .user
          name := "User " ++ entityId
          baseline_established := true
          last_activity := none
          is_privileged := some false
          is_external := none
          is_trusted := none }
    | some .device =>
        { entity_id := entityId
          entity_type := .device
          name := "Device " ++ entityId
          baseline_established := true
          last_activity := none
          is_privileged := none
          is_external := none
          is_trusted := some false }
    | some t =>
        { entity_id := entityId
          entity_type := t
          name := "Entity " ++ entityId
          baseline_established := true
          last_activity := none
          is_privileged := none
          is_external := none
          is_trusted := none }
    | none =>
        { entity_id := entityId
          entity_type := .user
          name := "Entity " ++ entityId
          baseline_established := true
          last_activity := none
          is_privileged := none
          is_external := none
          is_trusted := none })

/-- Model of `UEBASystem._create_risk_alert` (the `:.3f` interpolation of the
score into the description string is elided; the alert id is a fresh UUID,
modelled deterministically from the entity id). -/
noncomputable def createRiskAlert (entity : Entity) (riskScore : RiskScoreR)
    (now : ℤ) : Alert :=
  { alert_id := "uuid4-" ++ entity.entity_id
    title := "High Risk Entity Detected: " ++ entity.name
    description := "Entity " ++ entity.entity_id ++
      " has elevated risk score"
    severity := if riskScore.risk_level = .high then .high else .critical
    status := .open
    entity_id := entity.entity_id
    entity_type := entity.entity_type
    risk_score := riskScore.overall_score
    created_at := now
    escalated := false
    escalated_at := none }

/-- Model of `UEBASystem.analyze_entity_behavior` (`main.py`).  With no
matching entities the error response is returned.  Otherwise the per-entity
loop runs: `_collect_entity_events` is the in-repo mock that returns `[]`,
and `_get_anomalies_by_ids` returns `[]`, so the accumulated anomaly list
stays empty whatever the behavior-engine analysis (whose result feeds only
that call); risk scoring uses the scorer's per-entity history and appends a
high/very-high alert.  The returned state is the scorer history map. -/
noncomputable def analyzeEntityBehavior
    (histories : List (String × List (ℤ × ℝ))) (request : AnalysisRequest)
    (now : ℤ) :
    AnalysisResponse × List (String × List (ℤ × ℝ)) :=
  let entities := collectEntities request.entity_ids request.entity_type
  if entities = [] then
    ({ status := "error"
       error := some "No entities found"
       anomalies := []
       risk_scores := []
       alerts := [] }, histories)
  else
    let step := fun
      (acc : List RiskScoreR × List Alert × List (String × List (ℤ × ℝ)))
      (entity : Entity) =>
      if "risk_scoring" ∈ request.analysis_types then
        let history := (dictLookup acc.2.2 entity.entity_id).getD []
        let result := calculateEntityRisk history entity [] [] now
        let riskScore := result.1
        let alerts :=
          if riskScore.risk_level = .high ∨ riskScore.risk_level = .very_high
          then acc.2.1 ++ [createRiskAlert entity riskScore now]
          else acc.2.1
        (acc.1 ++ [riskScore], alerts,
          dictInsert acc.2.2 entity.entity_id result.2)
      else acc
    let final := entities.foldl step ([], [], histories)
    ({ status := "completed"
       error := none
       anomalies := []
       risk_scores := final.1
       alerts := final.2.1 }, final.2.2)

/-- An analysis request over no entities at all. -/
def exEmptyRequest : AnalysisRequest :=
  { entity_ids := []
    entity_type := none
    analysis_types := ["anomaly_detection", "risk_scoring"] }

/-- An analysis request over one user entity. -/
def exOneRequest : AnalysisRequest :=
  { entity_ids := ["user_001"]
    entity_type := some .user
    analysis_types := ["anomaly_detection", "risk_scoring"] }

/-- `C8` (counterexample).  `analyze([])` does return empty anomaly, risk
score and alert lists, but with `status = "error"` and the error message
`No entities found` in the results — an error *is* reported, contradicting
the claim. -/
theorem analyzeEntityBehavior_empty_counterexample :
    (analyzeEntityBehavior [] exEmptyRequest 0).1.status = "error" ∧
    (analyzeEntityBehavior [] exEmptyRequest 0).1.error =
      some "No entities found" ∧
    (analyzeEntityBehavior [] exEmptyRequest 0).1.anomalies = [] ∧
    (analyzeEntityBehavior [] exEmptyRequest 0).1.risk_scores = [] ∧
    (analyzeEntityBehavior [] exEmptyRequest 0).1.alerts = [] :=
  ⟨rfl, rfl, rfl, rfl, rfl⟩

/-- `C8` (amended).  Calling the analyze entry point with an empty entity-id
list returns a response whose anomalies, risk-scores and alerts lists are
all empty and raises no exception, but its status is `"error"` with results
`{"error": "No entities found"}`; with a nonempty entity-id list (and hence
an empty event set per entity from the mock collector) it completes with
status `"completed"`, an empty anomaly list and no error, rather than
raising. -/
theorem analyzeEntityBehavior_spec
    (histories : List (String × List (ℤ × ℝ))) (request : AnalysisRequest)
    (now : ℤ) :
    (request.entity_ids = [] →
      (analyzeEntityBehavior histories request now).1 =
        { status := "error"
          error := some "No entities found"
          anomalies := []
          risk_scores := []
          alerts := [] }) ∧
    (request.entity_ids ≠ [] →
      (analyzeEntityBehavior histories request now).1.status = "completed" ∧
      (analyzeEntityBehavior histories request now).1.anomalies = [] ∧
      (analyzeEntityBehavior histories request now).1.error = none) := by
  constructor
  · intro h
    unfold analyzeEntityBehavior
    rw [if_pos]
    unfold collectEntities
    rw [h]
    rfl
  · intro h
    have hne : collectEntities request.entity_ids request.entity_type ≠ [] := by
      unfold collectEntities
      simpa using h
    unfold analyzeEntityBehavior
    rw [if_neg hne]
    exact ⟨rfl, rfl, rfl⟩

/-- `C8` (witness): a one-entity request completes with no anomalies and no
error. -/
theorem analyzeEntityBehavior_spec_witness :
    (analyzeEntityBehavior [] exOneRequest 0).1.status = "completed" ∧
    (analyzeEntityBehavior [] exOneRequest 0).1.anomalies = [] ∧
    (analyzeEntityBehavior [] exOneRequest 0).1.error = none :=
  (analyzeEntityBehavior_spec [] exOneRequest 0).2 (by simp [exOneRequest])

end UEBA
